import Mathlib

/-!
Verification of the recommendation-mining core of `youtube_bias_miner`.

The Python sources embedded here:
  * `src/recommendationScraper.py` — `RecommendationScraper.fetch_html`,
    `RecommendationScraper.parse_recommended_videos`;
  * `src/MineBias.py` — `BiasMiner.mine_channel_recommendations`,
    `BiasMiner.load_channel_bias_from_json`, `BiasMiner.mine_recommendation_bias`.

Python runtime values reachable from `json.loads` / `json.load` are modelled by
the inductive `Json` (Python `None` is `Json.null`).  Python exceptions are
modelled by `PyErr`, keeping the distinction between exception *types*
(`KeyError`, `IndexError`, `AttributeError`, `TypeError`, `json.JSONDecodeError`
and plain `Exception msg`), because the source's `except KeyError:` handler
discriminates on the type.  Fallible Python expressions become `Except PyErr`.

External collaborators are modelled at their call boundary:
  * `BeautifulSoup(html).find_all("script")` — the input to the extraction
    stage is the list of script-block texts;
  * `requests.get` — `fetch_html` takes the response's status code and body;
  * `json.loads` — a JSON parser over the grammar (integer numerals; this
    suffices for every value the repository manipulates);
  * the filesystem of `load_channel_bias_from_json` / `save_channel_bias_to_json`
    — a partial map from channel id to the parsed content of
    `channel_bias/<id>.json`;
  * the network-dependent scraper calls of the campaign loop — an oracle
    giving the outcome of the n-th attempt for a video id.
-/

/-- A Python value reachable from `json.loads`, plus `None` (`null`). -/
inductive Json where
  | null : Json
  | bool : Bool → Json
  | num : Int → Json
  | str : String → Json
  | arr : List Json → Json
  | obj : List (String × Json) → Json

/-- Structural equality of `Json` values (Python `==` on such values). -/
def jsonBeq : Json → Json → Bool
  | .null, .null => true
  | .bool a, .bool b => a == b
  | .num a, .num b => a == b
  | .str a, .str b => a == b
  | .arr (a :: as), .arr (b :: bs) => jsonBeq a b && jsonBeq (.arr as) (.arr bs)
  | .arr [], .arr [] => true
  | .obj ((ka, va) :: as), .obj ((kb, vb) :: bs) =>
      ka == kb && jsonBeq va vb && jsonBeq (.obj as) (.obj bs)
  | .obj [], .obj [] => true
  | _, _ => false

/-- A Python exception, discriminated by type the way `except` clauses do. -/
inductive PyErr where
  | keyError : String → PyErr
  | indexError : PyErr
  | typeError : PyErr
  | attributeError : PyErr
  | jsonDecodeError : String → PyErr
  | exception : String → PyErr
deriving DecidableEq

/-- First binding of `k` in an association list (Python dicts built by
`json.loads` have unique keys, so which occurrence is irrelevant there). -/
def assocFind (kvs : List (String × Json)) (k : String) : Option Json :=
  match kvs with
  | [] => none
  | (k', v) :: rest => if k' == k then some v else assocFind rest k

/-- `k in d` for a dict: key membership. -/
def hasKey (kvs : List (String × Json)) (k : String) : Bool :=
  (assocFind kvs k).isSome

def isObj : Json → Bool
  | .obj _ => true
  | _ => false

/-- Python `d[k]` (`__getitem__`): `KeyError` on a dict without the key,
`TypeError` when a list/str is indexed by a string key, `TypeError` when the
value is not subscriptable. -/
def pyGetItem (j : Json) (k : String) : Except PyErr Json :=
  match j with
  | .obj kvs =>
      match assocFind kvs k with
      | some v => .ok v
      | none => .error (.keyError k)
  | .arr _ => .error .typeError
  | .str _ => .error .typeError
  | _ => .error .typeError

/-- Python `d.get(k, default)`: total on dicts; on any non-dict the attribute
access `.get` raises `AttributeError`. -/
def pyGet (j : Json) (k : String) (default : Json) : Except PyErr Json :=
  match j with
  | .obj kvs =>
      match assocFind kvs k with
      | some v => .ok v
      | none => .ok default
  | _ => .error .attributeError

/-- Python `xs[0]`: `IndexError` on an empty list, first element otherwise;
a one-character string for `s[0]`; `TypeError` on non-subscriptables. -/
def pyIndexZero (j : Json) : Except PyErr Json :=
  match j with
  | .arr [] => .error .indexError
  | .arr (x :: _) => .ok x
  | .str s =>
      match s.toList with
      | [] => .error .indexError
      | c :: _ => .ok (.str (String.mk [c]))
  | _ => .error .typeError

/-- Python `needle in haystack` over `List Char`. -/
def charsContain (hay needle : List Char) : Bool :=
  match hay with
  | [] => needle.isEmpty
  | _ :: rest => needle.isPrefixOf hay || charsContain rest needle

/-- Python `k in j`: key membership on dicts, `==`-membership on lists,
substring test on strings, `TypeError` otherwise. -/
def pyContains (j : Json) (k : String) : Except PyErr Bool :=
  match j with
  | .obj kvs => .ok (hasKey kvs k)
  | .arr xs => .ok (xs.any (fun x => jsonBeq x (.str k)))
  | .str s => .ok (charsContain s.toList k.toList)
  | _ => .error .typeError

/-- Python `for x in j`: the iteration sequence — list elements, dict keys,
one-character strings of a string; `TypeError` on non-iterables. -/
def pyIter (j : Json) : Except PyErr (List Json) :=
  match j with
  | .arr xs => .ok xs
  | .obj kvs => .ok (kvs.map (fun kv => Json.str kv.1))
  | .str s => .ok (s.toList.map (fun c => Json.str (String.mk [c])))
  | _ => .error .typeError

/-- Python truthiness of a `Json` value (`if bias_data:`). -/
def jsonTruthy : Json → Bool
  | .null => false
  | .bool b => b
  | .num n => n != 0
  | .str s => !s.isEmpty
  | .arr xs => !xs.isEmpty
  | .obj kvs => !kvs.isEmpty

/-- One parsed recommendation, the dict built at lines 66–71 of
`recommendationScraper.py`.  Field values are whatever Python values the
lookups produced (in particular `video_id` can be `None`). -/
structure Rec where
  video_id : Json
  title : Json
  channel_name : Json
  channel_id : Json

/-! ### Python string operations used by the extraction stage -/

/-- Python `str.find` over char lists: first index of `needle`, `-1` if none. -/
def charsFind (hay needle : List Char) : Int :=
  match hay with
  | [] => if needle.isEmpty then 0 else -1
  | _ :: rest =>
      if needle.isPrefixOf hay then 0
      else
        let r := charsFind rest needle
        if r < 0 then -1 else r + 1

/-- Python `str.rfind(";")` (a one-character needle): last index, `-1` if none. -/
def charsLastIdx (hay : List Char) (c : Char) : Int :=
  match hay with
  | [] => -1
  | x :: rest =>
      let r := charsLastIdx rest c
      if r ≥ 0 then r + 1 else if x == c then 0 else -1

/-- Python slice `s[i:j]` with Python's clamping of negative indices. -/
def pySlice (s : String) (i j : Int) : String :=
  let cs := s.toList
  let n : Int := cs.length
  let lo : Nat := (if i < 0 then max 0 (n + i) else min i n).toNat
  let hi : Nat := (if j < 0 then max 0 (n + j) else min j n).toNat
  String.mk ((cs.take hi).drop lo)

/-- Python `str.strip()` whitespace set. -/
def isPySpace (c : Char) : Bool :=
  c == ' ' || c == '\t' || c == '\n' || c == '\r' ||
    c == Char.ofNat 11 || c == Char.ofNat 12

/-- Python `str.strip()`. -/
def stripPy (s : String) : String :=
  String.mk (((s.toList.dropWhile isPySpace).reverse.dropWhile isPySpace).reverse)

/-! ### EmbeddedDataExtractor (lines 40–53 of `recommendationScraper.py`) -/

/-- The assignment marker searched for in each script block. -/
def marker : String := "var ytInitialData ="

def strContainsMarker (t : String) : Bool :=
  charsContain t.toList marker.toList

/-- Lines 46–48, before the `.strip()`: `script.text[start:end]` with
`start = find(marker) + len(marker)` and `end = rfind(";")`. -/
def isolatedRaw (t : String) : String :=
  pySlice t (charsFind t.toList marker.toList + (marker.toList.length : Int))
    (charsLastIdx t.toList ';')

/-- Lines 46–48: `script.text[start:end].strip()`. -/
def isolate (t : String) : String :=
  stripPy (isolatedRaw t)

/-- Lines 44–49: scan script texts, isolate from the first marker-bearing one
(`break`); `none` models `yt_initial_data` still being `None`. -/
def find_blob : List String → Option String
  | [] => none
  | t :: ts => if strContainsMarker t then some (isolate t) else find_blob ts

def noDataMsg : String := "Could not find the ytInitialData script in the page."

def structMsg : String :=
  "Failed to parse recommended videos. The structure might have changed."

/-- Lines 51–52: `if not yt_initial_data: raise Exception(...)`.  Python `not`
is true both for `None` (marker never found) and for the empty string (the
isolated text stripped to nothing). -/
def extract_blob (scripts : List String) : Except PyErr String :=
  match find_blob scripts with
  | none => .error (.exception noDataMsg)
  | some yt => if yt == "" then .error (.exception noDataMsg) else .ok yt

/-! ### `json.loads` (library call), on the JSON grammar with integer
numerals — all values this repository manipulates are covered. -/

def isJsonWs (c : Char) : Bool :=
  c == ' ' || c == '\t' || c == '\n' || c == '\r'

def skipWs (cs : List Char) : List Char := cs.dropWhile isJsonWs

def hexVal (c : Char) : Option Nat :=
  if '0' ≤ c && c ≤ '9' then some (c.toNat - 48)
  else if 'a' ≤ c && c ≤ 'f' then some (c.toNat - 87)
  else if 'A' ≤ c && c ≤ 'F' then some (c.toNat - 55)
  else none

def digitsToNat (acc : Nat) : List Char → Nat × List Char
  | c :: rest => if c.isDigit then digitsToNat (acc * 10 + (c.toNat - 48)) rest else (acc, c :: rest)
  | [] => (acc, [])

/-- A JSON string body, after the opening quote. -/
def jsonStr (fuel : Nat) (cs : List Char) : Option (String × List Char) :=
  match fuel with
  | 0 => none
  | fuel + 1 =>
    match cs with
    | [] => none
    | '"' :: rest => some ("", rest)
    | '\\' :: e :: rest =>
      let cont (c : Char) (rs : List Char) : Option (String × List Char) :=
        (jsonStr fuel rs).map (fun p => (String.mk (c :: p.1.toList), p.2))
      (match e with
       | '"' => cont '"' rest
       | '\\' => cont '\\' rest
       | '/' => cont '/' rest
       | 'b' => cont (Char.ofNat 8) rest
       | 'f' => cont (Char.ofNat 12) rest
       | 'n' => cont '\n' rest
       | 'r' => cont '\r' rest
       | 't' => cont '\t' rest
       | 'u' =>
         match rest with
         | a :: b :: c :: d :: rs =>
           (match hexVal a, hexVal b, hexVal c, hexVal d with
            | some ha, some hb, some hc, some hd =>
                cont (Char.ofNat (((ha * 16 + hb) * 16 + hc) * 16 + hd)) rs
            | _, _, _, _ => none)
         | _ => none
       | _ => none)
    | c :: rest => (jsonStr fuel rest).map (fun p => (String.mk (c :: p.1.toList), p.2))

mutual

def jsonVal (fuel : Nat) (cs : List Char) : Option (Json × List Char) :=
  match fuel with
  | 0 => none
  | fuel + 1 =>
    match skipWs cs with
    | '{' :: rest => jsonObjBody fuel (skipWs rest)
    | '[' :: rest => jsonArrBody fuel (skipWs rest)
    | '"' :: rest => (jsonStr (fuel + 1) rest).map (fun p => (Json.str p.1, p.2))
    | 't' :: 'r' :: 'u' :: 'e' :: rest => some (Json.bool true, rest)
    | 'f' :: 'a' :: 'l' :: 's' :: 'e' :: rest => some (Json.bool false, rest)
    | 'n' :: 'u' :: 'l' :: 'l' :: rest => some (Json.null, rest)
    | '-' :: c :: rest =>
        if c.isDigit then
          let p := digitsToNat (c.toNat - 48) rest
          some (Json.num (-(p.1 : Int)), p.2)
        else none
    | c :: rest =>
        if c.isDigit then
          let p := digitsToNat (c.toNat - 48) rest
          some (Json.num (p.1 : Int), p.2)
        else none
    | [] => none

/-- Inside `{`, whitespace already skipped. -/
def jsonObjBody (fuel : Nat) (cs : List Char) : Option (Json × List Char) :=
  match fuel with
  | 0 => none
  | fuel + 1 =>
    match cs with
    | '}' :: rest => some (Json.obj [], rest)
    | '"' :: rest =>
      match jsonStr (fuel + 1) rest with
      | none => none
      | some (k, rest1) =>
        match skipWs rest1 with
        | ':' :: rest2 =>
          match jsonVal fuel rest2 with
          | none => none
          | some (v, rest3) =>
            match skipWs rest3 with
            | ',' :: rest4 =>
              (match skipWs rest4 with
               | '"' :: _ =>
                 (jsonObjBody fuel (skipWs rest4)).bind (fun p =>
                   match p.1 with
                   | .obj kvs => some (Json.obj ((k, v) :: kvs), p.2)
                   | _ => none)
               | _ => none)
            | '}' :: rest4 => some (Json.obj [(k, v)], rest4)
            | _ => none
        | _ => none
    | _ => none

/-- Inside `[`, whitespace already skipped. -/
def jsonArrBody (fuel : Nat) (cs : List Char) : Option (Json × List Char) :=
  match fuel with
  | 0 => none
  | fuel + 1 =>
    match cs with
    | ']' :: rest => some (Json.arr [], rest)
    | _ =>
      match jsonVal fuel cs with
      | none => none
      | some (v, rest1) =>
        match skipWs rest1 with
        | ',' :: rest2 =>
          (jsonArrBody fuel (skipWs rest2)).bind (fun p =>
            match p.1 with
            | .arr xs => some (Json.arr (v :: xs), p.2)
            | _ => none)
        | ']' :: rest2 => some (Json.arr [v], rest2)
        | _ => none

end

/-- `json.loads`: parse, require only whitespace after the value; every
failure is a `json.JSONDecodeError`. -/
def json_loads (s : String) : Except PyErr Json :=
  let cs := s.toList
  match jsonVal (cs.length + 1) cs with
  | some (v, rest) =>
      if (skipWs rest).isEmpty then .ok v
      else .error (.jsonDecodeError "Extra data")
  | none => .error (.jsonDecodeError "Expecting value")

/-! ### RecommendationParser (lines 55–74 of `recommendationScraper.py`) -/

/-- Lines 60–64: per-item field extraction from `item["compactVideoRenderer"]`.
`video_data.get("videoId")` has no default, so the absent case yields `None`;
the other lookups default to `""` (or to `{}` / `[{}]` at intermediate
levels).  `runs[0]` is a bare index, so a present-but-empty run list raises
`IndexError`. -/
def extract_record (video_data : Json) : Except PyErr Rec := do
  let video_id ← pyGet video_data "videoId" Json.null
  let t ← pyGet video_data "title" (Json.obj [])
  let title ← pyGet t "simpleText" (Json.str "")
  let lbt ← pyGet video_data "longBylineText" (Json.obj [])
  let runs ← pyGet lbt "runs" (Json.arr [Json.obj []])
  let channel_info ← pyIndexZero runs
  let channel_name ← pyGet channel_info "text" (Json.str "")
  let ne ← pyGet channel_info "navigationEndpoint" (Json.obj [])
  let be ← pyGet ne "browseEndpoint" (Json.obj [])
  let channel_id ← pyGet be "browseId" (Json.str "")
  .ok ⟨video_id, title, channel_name, channel_id⟩

/-- The extraction applied to a whole item:
`item["compactVideoRenderer"]` then `extract_record`. -/
def extract_from_item (item : Json) : Except PyErr Rec := do
  extract_record (← pyGetItem item "compactVideoRenderer")

/-- An item of the recognized "compact video" shape: a dict bearing the
`compactVideoRenderer` key (the loop's membership test on a dict). -/
def recognized (item : Json) : Bool :=
  match item with
  | .obj kvs => hasKey kvs "compactVideoRenderer"
  | _ => false

/-- Lines 57–71: the `for item in items` loop with its
`if "compactVideoRenderer" in item` filter, appending records in order. -/
def parse_items : List Json → Except PyErr (List Rec)
  | [] => .ok []
  | item :: rest => do
    let b ← pyContains item "compactVideoRenderer"
    if b then
      let r ← extract_from_item item
      let rs ← parse_items rest
      .ok (r :: rs)
    else
      parse_items rest

/-- The fixed navigation path of line 56. -/
def mandatory_path : List String :=
  ["contents", "twoColumnWatchNextResults", "secondaryResults", "secondaryResults", "results"]

/-- Chained `__getitem__` along a key path. -/
def pyGetPath (j : Json) : List String → Except PyErr Json
  | [] => .ok j
  | k :: ks => do pyGetPath (← pyGetItem j k) ks

/-- The body of the `try:` block, lines 56–72. -/
def run_parse (data : Json) : Except PyErr (List Rec) := do
  let results ← pyGetPath data mandatory_path
  let items ← pyIter results
  parse_items items

/-- Lines 55–74: `except KeyError:` converts exactly the `KeyError`s raised in
the `try:` block into the generic "structure changed" exception; every other
exception type propagates unchanged. -/
def parse_data (data : Json) : Except PyErr (List Rec) :=
  match run_parse data with
  | .error (.keyError _) => .error (.exception structMsg)
  | r => r

/-- `parse_recommended_videos` (lines 30–74), from the script-block texts:
extract the blob, `json.loads` it (outside the `try:`), then walk it. -/
def parse_recommended_videos (scripts : List String) : Except PyErr (List Rec) := do
  let blob ← extract_blob scripts
  let data ← json_loads blob
  parse_data data

/-! ### PageFetcher (lines 12–28 of `recommendationScraper.py`) -/

/-- `fetch_html`, at its `requests.get` boundary: given the response's status
code and body, return the body on 200, otherwise raise. -/
def fetch_html (status : Nat) (body : String) : Except PyErr String :=
  if status == 200 then .ok body
  else .error (.exception ("Failed to fetch video page, status code: " ++ toString status))

/-- The spec's three error kinds. -/
inductive ErrKind where
  | transport : ErrKind
  | extraction : ErrKind
  | parse : ErrKind
deriving DecidableEq

def pyStartsWith (s p : String) : Bool :=
  p.toList.isPrefixOf s.toList

/-- How a caller can recognise which kind of failure it holds: by the
exception's type (`json.JSONDecodeError` for a malformed blob) and otherwise
by its message text, since the source raises plain `Exception`s whose
messages differ per kind. -/
def classify_error : PyErr → Option ErrKind
  | .jsonDecodeError _ => some .extraction
  | .exception m =>
      if pyStartsWith m "Failed to fetch video page, status code: " then some .transport
      else if m == noDataMsg then some .extraction
      else if m == structMsg then some .parse
      else none
  | _ => none

/-- The kind of error carried by a failed result. -/
def errKindOf : Except PyErr α → Option ErrKind
  | .error e => classify_error e
  | .ok _ => none

/-! ### MiningCampaign (`MineBias.py`) -/

def isErr : Except PyErr α → Bool
  | .error _ => true
  | .ok _ => false

/-- Python dict assignment `m[k] = v`: overwrite in place if the key exists,
append otherwise. -/
def dictInsert : List (String × α) → String → α → List (String × α)
  | [], k, v => [(k, v)]
  | (k', v') :: rest, k, v =>
      if k' == k then (k', v) :: rest else (k', v') :: dictInsert rest k v

/-- The loop of `mine_channel_recommendations` (lines 43–58).  `calls id n`
is the outcome of attempt `n` (0 = first try, 1 = the retry inside
`except`) of `get_recommended_videos(id)` for that iteration; `acc` is the
`recommendations` dict.  Alongside the dict, the trace records how many
scraper calls each iteration made. -/
def mine_loop (calls : String → Nat → Except PyErr (List Rec))
    (acc : List (String × List Rec)) :
    List String → List (String × List Rec) × List (String × Nat)
  | [] => (acc, [])
  | id :: rest =>
    match calls id 0 with
    | .ok r =>
        let p := mine_loop calls (dictInsert acc id r) rest
        (p.1, (id, 1) :: p.2)
    | .error _ =>
      match calls id 1 with
      | .ok r =>
          let p := mine_loop calls (dictInsert acc id r) rest
          (p.1, (id, 2) :: p.2)
      | .error _ =>
          let p := mine_loop calls acc rest
          (p.1, (id, 2) :: p.2)

/-- `mine_channel_recommendations(video_ids)`: the loop started on an empty
dict. -/
def mine_channel_recommendations (calls : String → Nat → Except PyErr (List Rec))
    (video_ids : List String) : List (String × List Rec) × List (String × Nat) :=
  mine_loop calls [] video_ids

/-- `load_channel_bias_from_json` (lines 73–86): the filesystem is a partial
map from channel id to the parsed JSON content of `channel_bias/<id>.json`;
a missing file (`FileNotFoundError`) yields `{}`. -/
def load_channel_bias_from_json (fs : String → Option Json) (channel_id : String) : Json :=
  match fs channel_id with
  | some j => j
  | none => Json.obj []

/-- `mine_recommendation_bias` (lines 103–129).  `channels` is the key order
of the `channel_videos` dict (keys of a dict are distinct); `mineFn ch` is
the outcome of the `try:` body for channel `ch` (building the video-id list
and running `mine_channel_recommendations` over the network).  A successful
mine is written back by `save_channel_bias_to_json`, so the filesystem is
threaded through.  Returns the `recommendation_bias` dict, the list of
channels for which mining was performed, and the final filesystem. -/
def mine_recommendation_bias (mineFn : String → Except PyErr Json) :
    (String → Option Json) → List String →
    List (String × Json) × List String × (String → Option Json)
  | fs, [] => ([], [], fs)
  | fs, ch :: rest =>
    let bias_data := load_channel_bias_from_json fs ch
    if jsonTruthy bias_data then
      let p := mine_recommendation_bias mineFn fs rest
      ((ch, bias_data) :: p.1, p.2.1, p.2.2)
    else
      match mineFn ch with
      | .ok recs =>
          let fs1 := fun c => if c == ch then some recs else fs c
          let p := mine_recommendation_bias mineFn fs1 rest
          ((ch, recs) :: p.1, ch :: p.2.1, p.2.2)
      | .error _ =>
          let p := mine_recommendation_bias mineFn fs rest
          ((ch, Json.obj []) :: p.1, ch :: p.2.1, p.2.2)

/-! ### Concrete inputs used to settle the claims -/

/-- A parsed object whose mandatory navigation path resolves to `items`. -/
def wrapResults (items : List Json) : Json :=
  .obj [("contents", .obj [("twoColumnWatchNextResults",
    .obj [("secondaryResults", .obj [("secondaryResults",
      .obj [("results", .arr items)])])])])]

/-- A recognized item whose `compactVideoRenderer` dict is empty (so the
`videoId` field is absent). -/
def itemNoVideoId : Json := .obj [("compactVideoRenderer", .obj [])]

/-- A recognized item whose channel-attribution run list is present but
empty. -/
def itemEmptyRuns : Json :=
  .obj [("compactVideoRenderer", .obj [("longBylineText", .obj [("runs", .arr [])])])]

/-- A fully-populated recognized item (the spec's scenario fields). -/
def itemFull : Json :=
  .obj [("compactVideoRenderer", .obj [
    ("videoId", .str "abc123"),
    ("title", .obj [("simpleText", .str "Test")]),
    ("longBylineText", .obj [("runs", .arr [
      .obj [("text", .str "Chan"),
            ("navigationEndpoint", .obj [("browseEndpoint",
              .obj [("browseId", .str "UC1")])])]])])])]

/-- A second recognized item, to observe ordering. -/
def itemSecond : Json := .obj [("compactVideoRenderer", .obj [("videoId", .str "v2")])]

/-- Items of unrecognized shape: an ad, a shelf, a continuation. -/
def itemAd : Json := .obj [("compactPromotedVideoRenderer", .obj [])]

def itemShelf : Json := .obj [("compactShelfRenderer", .obj [])]

def itemContinuation : Json := .obj [("continuationItemRenderer", .obj [])]

/-- The spec scenario's script block, verbatim (its JSON value has twelve
opening braces but only eleven closing ones). -/
def c7origScript : String := "var ytInitialData = \x7b\"contents\":\x7b\"twoColumnWatchNextResults\":\x7b\"secondaryResults\":\x7b\"secondaryResults\":\x7b\"results\":[\x7b\"compactVideoRenderer\":\x7b\"videoId\":\"abc123\",\"title\":\x7b\"simpleText\":\"Test\"\x7d,\"longBylineText\":\x7b\"runs\":[\x7b\"text\":\"Chan\",\"navigationEndpoint\":\x7b\"browseEndpoint\":\x7b\"browseId\":\"UC1\"\x7d\x7d\x7d]\x7d\x7d\x7d]\x7d\x7d\x7d\x7d;"

/-- The spec scenario's script block with the missing closing brace added,
making the assigned value well-formed JSON. -/
def c7fixedScript : String := "var ytInitialData = \x7b\"contents\":\x7b\"twoColumnWatchNextResults\":\x7b\"secondaryResults\":\x7b\"secondaryResults\":\x7b\"results\":[\x7b\"compactVideoRenderer\":\x7b\"videoId\":\"abc123\",\"title\":\x7b\"simpleText\":\"Test\"\x7d,\"longBylineText\":\x7b\"runs\":[\x7b\"text\":\"Chan\",\"navigationEndpoint\":\x7b\"browseEndpoint\":\x7b\"browseId\":\"UC1\"\x7d\x7d\x7d]\x7d\x7d\x7d]\x7d\x7d\x7d\x7d\x7d;"

/-- A scraper-call oracle for the campaign: every attempt for id "x" raises
(with distinct messages per attempt), every other id succeeds. -/
def c8calls (id : String) (attempt : Nat) : Except PyErr (List Rec) :=
  if id == "x" then
    .error (.exception (if attempt == 0 then "boom1" else "boom2"))
  else
    .ok []

/-- A filesystem for the campaign: channel "a" has a non-empty persisted
dataset, channel "b" has no file. -/
def c9fs (channel_id : String) : Option Json :=
  if channel_id == "a" then some (.obj [("vid1", .arr [])]) else none

/-- A mining oracle for the campaign that always succeeds. -/
def c9mine (_channel_id : String) : Except PyErr Json :=
  .ok (.obj [("vid2", .arr [])])

/-! ### Helper lemmas -/

theorem exbind_ok {α β : Type} {x : Except PyErr α} {f : α → Except PyErr β} {b : β} :
    (x >>= f) = .ok b ↔ ∃ a, x = .ok a ∧ f a = .ok b := by
  cases x <;> simp [Bind.bind, Except.bind]

theorem exbind_err {α β : Type} {x : Except PyErr α} {f : α → Except PyErr β} {e : PyErr}
    (h : x = .error e) : (x >>= f) = .error e := by
  subst h; rfl

theorem assocFind_eq_none {kvs : List (String × Json)} {k : String}
    (h : hasKey kvs k = false) : assocFind kvs k = none := by
  cases hv : assocFind kvs k with
  | none => rfl
  | some v => simp [hasKey, hv] at h

theorem pyGetPath_append (l1 l2 : List String) : ∀ (j : Json),
    pyGetPath j (l1 ++ l2) = (pyGetPath j l1) >>= fun x => pyGetPath x l2 := by
  induction l1 with
  | nil => intro j; simp [pyGetPath, Bind.bind, Except.bind]
  | cons k ks ih =>
      intro j
      simp only [List.cons_append, pyGetPath]
      cases h : pyGetItem j k with
      | error e => simp [h, Bind.bind, Except.bind]
      | ok v => simp [h, Bind.bind, Except.bind, ih v]

theorem find_blob_eq_none {scripts : List String}
    (h : ∀ t ∈ scripts, strContainsMarker t = false) : find_blob scripts = none := by
  induction scripts with
  | nil => rfl
  | cons t ts ih =>
      have ht := h t (by simp)
      simp [find_blob, ht]
      exact ih (fun u hu => h u (by simp [hu]))

theorem find_blob_append_first {pre : List String} {s : String} (post : List String)
    (hpre : ∀ t ∈ pre, strContainsMarker t = false)
    (hs : strContainsMarker s = true) :
    find_blob (pre ++ s :: post) = some (isolate s) := by
  induction pre with
  | nil => simp [find_blob, hs]
  | cons t ts ih =>
      have ht := hpre t (by simp)
      simp [find_blob, ht]
      exact ih (fun u hu => hpre u (by simp [hu]))

theorem stripPy_eq_empty {s : String} (h : ∀ c ∈ s.toList, isPySpace c = true) :
    stripPy s = "" := by
  have h1 : s.data.dropWhile isPySpace = [] := by
    rw [List.dropWhile_eq_nil_iff]
    exact fun c hc => h c hc
  simp [stripPy, String.toList, h1]

theorem pipeline_no_marker {scripts : List String}
    (h : ∀ t ∈ scripts, strContainsMarker t = false) :
    parse_recommended_videos scripts = .error (.exception noDataMsg) := by
  have h1 : find_blob scripts = none := find_blob_eq_none h
  simp [parse_recommended_videos, extract_blob, h1, Bind.bind, Except.bind]

theorem parse_data_of_keyError {data : Json} {k : String}
    (h : run_parse data = .error (.keyError k)) :
    parse_data data = .error (.exception structMsg) := by
  simp [parse_data, h]

/-- C5: for every input markup (given as its script-block texts) in which no
script block contains the initial-state assignment marker, extraction fails
with the "could not find" exception — the pipeline returns that error, not a
crash of another kind and not an empty result. -/
theorem c5_no_marker_extraction_error (scripts : List String)
    (h : ∀ t ∈ scripts, strContainsMarker t = false) :
    parse_recommended_videos scripts = .error (.exception noDataMsg) :=
  pipeline_no_marker h

theorem c5_witness :
    parse_recommended_videos ["<html><body>no data here</body></html>"] =
      .error (.exception noDataMsg) :=
  c5_no_marker_extraction_error _ (by decide)

/-- C10: when some script block contains the marker (and no earlier block
does) but the text between the marker and the last statement terminator is
empty or whitespace-only, the parse raises the "could not find" (blob not
found) exception, not the malformed-JSON error: the empty isolated value is
classified as marker absence by the `if not yt_initial_data` truthiness
test. -/
theorem c10_empty_blob_not_found (pre : List String) (s : String) (post : List String)
    (hpre : ∀ t ∈ pre, strContainsMarker t = false)
    (hs : strContainsMarker s = true)
    (hws : ∀ c ∈ (isolatedRaw s).toList, isPySpace c = true) :
    parse_recommended_videos (pre ++ s :: post) = .error (.exception noDataMsg) := by
  have h1 : find_blob (pre ++ s :: post) = some (isolate s) :=
    find_blob_append_first post hpre hs
  have h2 : isolate s = "" := stripPy_eq_empty hws
  simp [parse_recommended_videos, extract_blob, h1, h2, Bind.bind, Except.bind]

theorem c10_witness :
    parse_recommended_videos ["var ytInitialData = ;"] = .error (.exception noDataMsg) := by
  have h := c10_empty_blob_not_found [] "var ytInitialData = ;" []
    (by simp) (by decide) (by decide)
  simpa using h

/-- C4: for every parsed object in which some key of the fixed mandatory
navigation path is missing (the navigation up to that key yields a dict that
lacks it), `parse_recommended_videos`'s walking stage fails with the
"structure might have changed" exception — the `KeyError` is converted by
the `except KeyError:` handler, as distinct from the lenient per-field
extraction. -/
theorem c4_missing_path_key_parse_error (data : Json) (l1 l2 : List String) (k : String)
    (kvs : List (String × Json))
    (hsplit : mandatory_path = l1 ++ k :: l2)
    (hres : pyGetPath data l1 = .ok (.obj kvs))
    (hmiss : hasKey kvs k = false) :
    parse_data data = .error (.exception structMsg) := by
  have hnav : pyGetPath data mandatory_path = .error (.keyError k) := by
    rw [hsplit, pyGetPath_append, hres]
    simp [pyGetPath, pyGetItem, assocFind_eq_none hmiss, Bind.bind, Except.bind]
  have hrun : run_parse data = .error (.keyError k) := by
    simp [run_parse, hnav, Bind.bind, Except.bind]
  simp [parse_data, hrun]

theorem c4_witness : parse_data (Json.obj []) = .error (.exception structMsg) :=
  c4_missing_path_key_parse_error (Json.obj []) []
    ["twoColumnWatchNextResults", "secondaryResults", "secondaryResults", "results"]
    "contents" [] rfl rfl rfl

theorem listIsPrefixOfAppend (p t : List Char) : p.isPrefixOf (p ++ t) = true := by
  induction p with
  | nil => cases t <;> rfl
  | cons a as ih => simp [List.isPrefixOf, ih]

theorem pyStartsWithAppend (p t : String) : pyStartsWith (p ++ t) p = true := by
  simp only [pyStartsWith, String.toList, String.data_append]
  exact listIsPrefixOfAppend p.data t.data

theorem json_loads_error_shape {s : String} {e : PyErr}
    (h : json_loads s = .error e) : ∃ m, e = PyErr.jsonDecodeError m := by
  simp only [json_loads] at h
  split at h
  · split at h
    · exact absurd h (by simp)
    · exact ⟨"Extra data", by injection h with h1; exact h1.symm⟩
  · exact ⟨"Expecting value", by injection h with h1; exact h1.symm⟩

/-- C3: the three error kinds of the spec — transport failure in `fetch_html`,
extraction failure (blob not found, or a malformed blob from `json.loads`) and
parse failure (mandatory navigation path unresolvable) — are distinguishable
by a caller: `classify_error` recovers the kind from the raised value (by the
exception type for `json.JSONDecodeError`, by the message text for the plain
`Exception`s, whose messages differ per kind). -/
theorem c3_error_kinds_distinguishable (status : Nat) (body : String)
    (scripts : List String) (s : String) (data : Json) (e : PyErr) (k : String) :
    (status ≠ 200 → errKindOf (fetch_html status body) = some ErrKind.transport) ∧
    ((∀ t ∈ scripts, strContainsMarker t = false) →
       errKindOf (parse_recommended_videos scripts) = some ErrKind.extraction) ∧
    (json_loads s = .error e → classify_error e = some ErrKind.extraction) ∧
    (run_parse data = .error (.keyError k) →
       errKindOf (parse_data data) = some ErrKind.parse) := by
  refine ⟨?_, ?_, ?_, ?_⟩
  · intro h200
    have hb : (status == 200) = false := by simpa using h200
    simp only [fetch_html, hb, Bool.false_eq_true, if_false, errKindOf, classify_error]
    rw [pyStartsWithAppend]
    simp
  · intro h
    rw [pipeline_no_marker h]
    decide
  · intro h
    obtain ⟨m, hm⟩ := json_loads_error_shape h
    simp [hm, classify_error]
  · intro h
    rw [parse_data_of_keyError h]
    decide

theorem c3_witness :
    errKindOf (fetch_html 404 "") = some ErrKind.transport ∧
    errKindOf (parse_recommended_videos ["<p>"]) = some ErrKind.extraction ∧
    classify_error (PyErr.jsonDecodeError "Expecting value") = some ErrKind.extraction ∧
    errKindOf (parse_data (Json.obj [])) = some ErrKind.parse := by
  obtain ⟨h1, h2, h3, h4⟩ := c3_error_kinds_distinguishable 404 "" ["<p>"] "@"
    (Json.obj []) (PyErr.jsonDecodeError "Expecting value") "contents"
  exact ⟨h1 (by decide), h2 (by decide), h3 (by rfl), h4 (by rfl)⟩

/-- C1 counterexample: a parsed object whose path resolves and whose single
recognized item lacks the video-id field.  Parsing succeeds, but the record's
`video_id` is `None` (`Json.null`), not the empty string: the claim's
"video_id field is the empty string" is false at this input. -/
theorem c1_counterexample :
    parse_data (wrapResults [itemNoVideoId]) =
      .ok [⟨Json.null, .str "", .str "", .str ""⟩] ∧
    Json.null ≠ Json.str "" :=
  ⟨rfl, fun h => Json.noConfusion h⟩

/-- C1 (amended): for every recognized "compact video" item whose
`compactVideoRenderer` dict lacks the `videoId` key, if the per-item
extraction succeeds then the record's `video_id` field is `None`
(`Json.null`) — not the empty string, and not an error from this lookup
(`dict.get` without a default). -/
theorem c1_videoId_absent_yields_none (ikvs kvs : List (String × Json)) (r : Rec)
    (hcv : assocFind ikvs "compactVideoRenderer" = some (.obj kvs))
    (hmiss : hasKey kvs "videoId" = false)
    (hok : extract_from_item (.obj ikvs) = .ok r) :
    r.video_id = Json.null ∧ r.video_id ≠ Json.str "" := by
  have hafn := assocFind_eq_none hmiss
  simp only [extract_from_item, pyGetItem, hcv, exbind_ok] at hok
  obtain ⟨v, hv, hok⟩ := hok
  injection hv with hv
  subst hv
  simp only [extract_record, exbind_ok] at hok
  obtain ⟨vid, hvid, t, ht, ttl, httl, lbt, hlbt, runs, hruns, ci, hci,
    cn, hcn, n1, hn1, b1, hb1, cid, hcid, hfin⟩ := hok
  simp only [pyGet, hafn] at hvid
  injection hvid with hvid
  injection hfin with hfin
  subst hfin
  subst hvid
  exact ⟨rfl, fun h => Json.noConfusion h⟩

theorem c1_witness :
    extract_from_item itemNoVideoId =
      .ok ⟨Json.null, .str "", .str "", .str ""⟩ ∧
    (Json.null = Json.null ∧ Json.null ≠ Json.str "") :=
  ⟨rfl, c1_videoId_absent_yields_none [("compactVideoRenderer", .obj [])] [] _ rfl rfl rfl⟩

/-- C2 counterexample: a parsed object whose path resolves and whose single
recognized item has the channel-attribution run list present but empty.
`runs[0]` raises `IndexError`, which the `except KeyError:` handler does not
catch — parsing fails instead of producing empty channel fields, so the
claim's "never raises an error for this condition" is false at this input. -/
theorem c2_counterexample :
    parse_data (wrapResults [itemEmptyRuns]) = .error PyErr.indexError :=
  rfl

/-- C2 (amended): when the channel-attribution field is absent as a *key* —
the `longBylineText` key missing, or present with a dict missing the `runs`
key — extraction succeeds with empty-string channel name and channel id; but
when the run list is present and empty, the bare `runs[0]` index makes the
extraction fail (it can never return a record), because `IndexError` is not
the caught `KeyError`. -/
theorem c2_channel_fields_amended :
    (∀ kvs r, hasKey kvs "longBylineText" = false →
        extract_record (.obj kvs) = .ok r →
        r.channel_name = Json.str "" ∧ r.channel_id = Json.str "") ∧
    (∀ kvs kvs2 r, assocFind kvs "longBylineText" = some (.obj kvs2) →
        hasKey kvs2 "runs" = false →
        extract_record (.obj kvs) = .ok r →
        r.channel_name = Json.str "" ∧ r.channel_id = Json.str "") ∧
    (∀ kvs kvs2 r, assocFind kvs "longBylineText" = some (.obj kvs2) →
        assocFind kvs2 "runs" = some (.arr []) →
        extract_record (.obj kvs) ≠ .ok r) := by
  refine ⟨?_, ?_, ?_⟩
  · intro kvs r hmiss hok
    simp only [extract_record, exbind_ok] at hok
    obtain ⟨vid, hvid, t, ht, ttl, httl, lbt, hlbt, runs, hruns, ci, hci,
      cn, hcn, n1, hn1, b1, hb1, cid, hcid, hfin⟩ := hok
    simp only [pyGet, assocFind_eq_none hmiss] at hlbt
    injection hlbt with hlbt
    subst hlbt
    simp only [pyGet, assocFind] at hruns
    injection hruns with hruns
    subst hruns
    simp only [pyIndexZero] at hci
    injection hci with hci
    subst hci
    simp only [pyGet, assocFind] at hcn hn1
    injection hcn with hcn
    subst hcn
    injection hn1 with hn1
    subst hn1
    simp only [pyGet, assocFind] at hb1
    injection hb1 with hb1
    subst hb1
    simp only [pyGet, assocFind] at hcid
    injection hcid with hcid
    subst hcid
    injection hfin with hfin
    subst hfin
    exact ⟨rfl, rfl⟩
  · intro kvs kvs2 r hlbtv hmiss2 hok
    simp only [extract_record, exbind_ok] at hok
    obtain ⟨vid, hvid, t, ht, ttl, httl, lbt, hlbt, runs, hruns, ci, hci,
      cn, hcn, n1, hn1, b1, hb1, cid, hcid, hfin⟩ := hok
    simp only [pyGet, hlbtv] at hlbt
    injection hlbt with hlbt
    subst hlbt
    simp only [pyGet, assocFind_eq_none hmiss2] at hruns
    injection hruns with hruns
    subst hruns
    simp only [pyIndexZero] at hci
    injection hci with hci
    subst hci
    simp only [pyGet, assocFind] at hcn hn1
    injection hcn with hcn
    subst hcn
    injection hn1 with hn1
    subst hn1
    simp only [pyGet, assocFind] at hb1
    injection hb1 with hb1
    subst hb1
    simp only [pyGet, assocFind] at hcid
    injection hcid with hcid
    subst hcid
    injection hfin with hfin
    subst hfin
    exact ⟨rfl, rfl⟩
  · intro kvs kvs2 r hlbtv hrunsv hok
    simp only [extract_record, exbind_ok] at hok
    obtain ⟨vid, hvid, t, ht, ttl, httl, lbt, hlbt, runs, hruns, ci, hci, rest⟩ := hok
    simp only [pyGet, hlbtv] at hlbt
    injection hlbt with hlbt
    subst hlbt
    simp only [pyGet, hrunsv] at hruns
    injection hruns with hruns
    subst hruns
    simp only [pyIndexZero] at hci
    exact Except.noConfusion hci

theorem c2_witness :
    ((⟨Json.null, Json.str "", Json.str "", Json.str ""⟩ : Rec).channel_name = Json.str "" ∧
     (⟨Json.null, Json.str "", Json.str "", Json.str ""⟩ : Rec).channel_id = Json.str "") ∧
    ((⟨Json.null, Json.str "", Json.str "", Json.str ""⟩ : Rec).channel_name = Json.str "" ∧
     (⟨Json.null, Json.str "", Json.str "", Json.str ""⟩ : Rec).channel_id = Json.str "") ∧
    extract_record (Json.obj [("longBylineText", Json.obj [("runs", Json.arr [])])]) ≠
      .ok ⟨Json.null, Json.str "", Json.str "", Json.str ""⟩ :=
  ⟨c2_channel_fields_amended.1 [] ⟨Json.null, .str "", .str "", .str ""⟩ rfl rfl,
   c2_channel_fields_amended.2.1 [("longBylineText", Json.obj [])] []
     ⟨Json.null, .str "", .str "", .str ""⟩ rfl rfl rfl,
   c2_channel_fields_amended.2.2 [("longBylineText", Json.obj [("runs", Json.arr [])])]
     [("runs", Json.arr [])] ⟨Json.null, .str "", .str "", .str ""⟩ rfl rfl⟩

/-- C6: whenever the items list consists of dicts and the loop succeeds, the
output is exactly the extraction of the recognized "compact video" items, in
their original relative order — unrecognized shapes (ads, shelves,
continuations) are skipped with no placeholder entry and nothing is
re-sorted. -/
theorem c6_filter_preserves_order (items : List Json) (rs : List Rec)
    (hobj : ∀ it ∈ items, isObj it = true)
    (h : parse_items items = .ok rs) :
    rs = items.filterMap
      (fun it => if recognized it then (extract_from_item it).toOption else none) := by
  induction items generalizing rs with
  | nil =>
      simp only [parse_items] at h
      injection h with h
      subst h
      rfl
  | cons item rest ih =>
      obtain ⟨kvs, hkvs⟩ : ∃ kvs, item = Json.obj kvs := by
        have hi := hobj item (by simp)
        cases item <;> simp [isObj] at hi ⊢
      subst hkvs
      simp only [parse_items, pyContains, exbind_ok] at h
      obtain ⟨b, hb, h⟩ := h
      injection hb with hb
      subst hb
      by_cases hrec : hasKey kvs "compactVideoRenderer" = true
      · simp only [hrec, if_true, exbind_ok] at h
        obtain ⟨r, hr, rs1, hrs1, hfin⟩ := h
        injection hfin with hfin
        subst hfin
        have hrest := ih rs1 (fun u hu => hobj u (List.mem_cons_of_mem _ hu)) hrs1
        have hhead : (if recognized (Json.obj kvs) then
            (extract_from_item (Json.obj kvs)).toOption else none) = some r := by
          simp [recognized, hrec, hr, Except.toOption]
        rw [List.filterMap_cons, hhead, hrest]
      · simp only [hrec, if_false] at h
        have hrest := ih rs (fun u hu => hobj u (List.mem_cons_of_mem _ hu)) h
        have hrecb : hasKey kvs "compactVideoRenderer" = false := by
          cases hx : hasKey kvs "compactVideoRenderer"
          · rfl
          · exact absurd hx hrec
        have hhead : (if recognized (Json.obj kvs) then
            (extract_from_item (Json.obj kvs)).toOption else none) = none := by
          simp [recognized, hrecb]
        rw [List.filterMap_cons, hhead]
        exact hrest

theorem c6_witness :
    parse_items [itemShelf, itemFull, itemAd, itemSecond, itemContinuation] =
      .ok [⟨.str "abc123", .str "Test", .str "Chan", .str "UC1"⟩,
           ⟨.str "v2", .str "", .str "", .str ""⟩] ∧
    ([⟨.str "abc123", .str "Test", .str "Chan", .str "UC1"⟩,
      ⟨.str "v2", .str "", .str "", .str ""⟩] : List Rec) =
      ([itemShelf, itemFull, itemAd, itemSecond, itemContinuation].filterMap
        (fun it => if recognized it then (extract_from_item it).toOption else none)) :=
  ⟨rfl,
   c6_filter_preserves_order [itemShelf, itemFull, itemAd, itemSecond, itemContinuation]
     [⟨.str "abc123", .str "Test", .str "Chan", .str "UC1"⟩,
      ⟨.str "v2", .str "", .str "", .str ""⟩]
     (by decide) rfl⟩

set_option maxRecDepth 100000 in
/-- C7 counterexample: on the spec's scenario markup taken verbatim, the
pipeline does NOT yield the claimed record: the isolated value has twelve
opening braces but only eleven closing ones, so it is not valid JSON and
`json.loads` fails with the malformed-blob error. -/
theorem c7_counterexample :
    parse_recommended_videos [c7origScript] = .error (.jsonDecodeError "Expecting value") ∧
    parse_recommended_videos [c7origScript] ≠
      .ok [⟨.str "abc123", .str "Test", .str "Chan", .str "UC1"⟩] := by
  have h1 : parse_recommended_videos [c7origScript] =
      .error (.jsonDecodeError "Expecting value") := rfl
  refine ⟨h1, ?_⟩
  rw [h1]
  intro h
  exact Except.noConfusion h

set_option maxRecDepth 100000 in
/-- C7 (amended): on the scenario markup with the missing closing brace of
the spec's example added, the fetch-free extract+parse pipeline takes the
first (only) marker-bearing script block, isolates the text from just after
the marker to the last `;`, parses it as JSON, and yields exactly one record
`{video_id:"abc123", title:"Test", channel_name:"Chan", channel_id:"UC1"}`. -/
theorem c7_scenario_amended :
    parse_recommended_videos [c7fixedScript] =
      .ok [⟨.str "abc123", .str "Test", .str "Chan", .str "UC1"⟩] := rfl

theorem dictInsert_map_fst {α : Type} (m : List (String × α)) (k y : String) (v : α) :
    y ∈ (dictInsert m k v).map Prod.fst ↔ y ∈ m.map Prod.fst ∨ y = k := by
  induction m with
  | nil => simp [dictInsert]
  | cons p rest ih =>
      obtain ⟨k1, v1⟩ := p
      simp only [dictInsert]
      cases hk : (k1 == k) with
      | true =>
          have hk1 : k1 = k := by simpa using hk
          subst hk1
          simp
          tauto
      | false =>
          have hne : k1 ≠ k := by simpa using hk
          simp [ih]
          tauto

theorem mine_loop_skips_failing (calls : String → Nat → Except PyErr (List Rec))
    (x : String) (h0 : isErr (calls x 0) = true) (h1 : isErr (calls x 1) = true) :
    ∀ (ids : List String) (acc : List (String × List Rec)),
      x ∉ acc.map Prod.fst → x ∉ ((mine_loop calls acc ids).1.map Prod.fst) := by
  intro ids
  induction ids with
  | nil => intro acc hacc; simpa [mine_loop] using hacc
  | cons id rest ih =>
      intro acc hacc
      by_cases hx : id = x
      · subst hx
        cases hc0 : calls id 0 with
        | ok r => rw [hc0] at h0; simp [isErr] at h0
        | error e =>
          cases hc1 : calls id 1 with
          | ok r => rw [hc1] at h1; simp [isErr] at h1
          | error e2 =>
            simp only [mine_loop, hc0, hc1]
            exact ih acc hacc
      · have hnew : ∀ r, x ∉ ((dictInsert acc id r).map Prod.fst) := by
          intro r hmem
          rcases (dictInsert_map_fst acc id x r).mp hmem with hmem1 | hmem2
          · exact hacc hmem1
          · exact hx hmem2.symm
        cases hc0 : calls id 0 with
        | ok r =>
            simp only [mine_loop, hc0]
            exact ih _ (hnew r)
        | error e =>
          cases hc1 : calls id 1 with
          | ok r =>
              simp only [mine_loop, hc0, hc1]
              exact ih _ (hnew r)
          | error e2 =>
              simp only [mine_loop, hc0, hc1]
              exact ih acc hacc

theorem mine_loop_counts (calls : String → Nat → Except PyErr (List Rec))
    (x : String) (h0 : isErr (calls x 0) = true) (h1 : isErr (calls x 1) = true) :
    ∀ (ids : List String) (acc : List (String × List Rec)),
      ((mine_loop calls acc ids).2.filter (fun q => q.1 == x)) =
        (ids.filter (fun y => y == x)).map (fun y => (y, 2)) := by
  intro ids
  induction ids with
  | nil => intro acc; simp [mine_loop]
  | cons id rest ih =>
      intro acc
      by_cases hx : id = x
      · subst hx
        cases hc0 : calls id 0 with
        | ok r => rw [hc0] at h0; simp [isErr] at h0
        | error e =>
          cases hc1 : calls id 1 with
          | ok r => rw [hc1] at h1; simp [isErr] at h1
          | error e2 =>
            simp only [mine_loop, hc0, hc1]
            simp [List.filter_cons, ih acc]
      · have hbx : (id == x) = false := by simpa using hx
        cases hc0 : calls id 0 with
        | ok r =>
            simp only [mine_loop, hc0]
            simp [List.filter_cons, hbx, ih (dictInsert acc id r)]
        | error e =>
          cases hc1 : calls id 1 with
          | ok r =>
              simp only [mine_loop, hc0, hc1]
              simp [List.filter_cons, hbx, ih (dictInsert acc id r)]
          | error e2 =>
              simp only [mine_loop, hc0, hc1]
              simp [List.filter_cons, hbx, ih acc]

theorem mine_loop_drop_failing (calls : String → Nat → Except PyErr (List Rec))
    (x : String) (h0 : isErr (calls x 0) = true) (h1 : isErr (calls x 1) = true) :
    ∀ (ids : List String) (acc : List (String × List Rec)),
      (mine_loop calls acc ids).1 =
        (mine_loop calls acc (ids.filter (fun y => !(y == x)))).1 := by
  intro ids
  induction ids with
  | nil => intro acc; rfl
  | cons id rest ih =>
      intro acc
      by_cases hx : id = x
      · subst hx
        have hfilter : List.filter (fun y => !(y == id)) (id :: rest) =
            List.filter (fun y => !(y == id)) rest := by
          simp [List.filter_cons]
        cases hc0 : calls id 0 with
        | ok r => rw [hc0] at h0; simp [isErr] at h0
        | error e =>
          cases hc1 : calls id 1 with
          | ok r => rw [hc1] at h1; simp [isErr] at h1
          | error e2 =>
            rw [hfilter]
            simp only [mine_loop, hc0, hc1]
            exact ih acc
      · have hbx : (!(id == x)) = true := by simpa using hx
        have hfilter : List.filter (fun y => !(y == x)) (id :: rest) =
            id :: List.filter (fun y => !(y == x)) rest := by
          simp [List.filter_cons, hbx]
        rw [hfilter]
        cases hc0 : calls id 0 with
        | ok r =>
            simp only [mine_loop, hc0]
            exact ih (dictInsert acc id r)
        | error e =>
          cases hc1 : calls id 1 with
          | ok r =>
              simp only [mine_loop, hc0, hc1]
              exact ih (dictInsert acc id r)
          | error e2 =>
              simp only [mine_loop, hc0, hc1]
              exact ih acc

/-- C8: in the campaign loop, an id whose scraper call fails on the first
attempt and again on the retry (exactly one retry: its per-iteration call
trace is `2`) contributes no entry to the resulting mapping, and the mapping
is exactly what it would be had the failing id not been in the input list —
the loop continues with the remaining ids instead of aborting. -/
theorem c8_retry_once_then_skip (calls : String → Nat → Except PyErr (List Rec))
    (ids : List String) (x : String)
    (h0 : isErr (calls x 0) = true) (h1 : isErr (calls x 1) = true) :
    x ∉ ((mine_channel_recommendations calls ids).1.map Prod.fst) ∧
    ((mine_channel_recommendations calls ids).2.filter (fun q => q.1 == x)) =
      (ids.filter (fun y => y == x)).map (fun y => (y, 2)) ∧
    (mine_channel_recommendations calls ids).1 =
      (mine_channel_recommendations calls (ids.filter (fun y => !(y == x)))).1 :=
  ⟨mine_loop_skips_failing calls x h0 h1 ids [] (by simp),
   mine_loop_counts calls x h0 h1 ids [],
   mine_loop_drop_failing calls x h0 h1 ids []⟩

theorem c8_witness :
    "x" ∉ ((mine_channel_recommendations c8calls ["x", "y"]).1.map Prod.fst) ∧
    ((mine_channel_recommendations c8calls ["x", "y"]).2.filter (fun q => q.1 == "x")) =
      ((["x", "y"] : List String).filter (fun y => y == "x")).map (fun y => (y, 2)) ∧
    (mine_channel_recommendations c8calls ["x", "y"]).1 =
      (mine_channel_recommendations c8calls
        ((["x", "y"] : List String).filter (fun y => !(y == "x")))).1 :=
  c8_retry_once_then_skip c8calls ["x", "y"] "x" rfl rfl

theorem mined_subset (mineFn : String → Except PyErr Json) :
    ∀ (channels : List String) (fs : String → Option Json),
      ∀ c ∈ (mine_recommendation_bias mineFn fs channels).2.1, c ∈ channels := by
  intro channels
  induction channels with
  | nil => intro fs c hc; simp [mine_recommendation_bias] at hc
  | cons ch rest ih =>
      intro fs c hc
      cases ht : jsonTruthy (load_channel_bias_from_json fs ch) with
      | true =>
          simp only [mine_recommendation_bias, ht, if_true] at hc
          exact List.mem_cons_of_mem _ (ih fs c hc)
      | false =>
          simp only [mine_recommendation_bias, ht] at hc
          cases hm : mineFn ch with
          | ok recs =>
              rw [hm] at hc
              simp only at hc
              rcases List.mem_cons.mp hc with h | h
              · exact h ▸ List.mem_cons_self _ _
              · exact List.mem_cons_of_mem _ (ih _ c h)
          | error e =>
              rw [hm] at hc
              simp only at hc
              rcases List.mem_cons.mp hc with h | h
              · exact h ▸ List.mem_cons_self _ _
              · exact List.mem_cons_of_mem _ (ih _ c h)

/-- C9: in the campaign, for every channel of the (duplicate-free) channel
dict: if the persisted dataset loads as truthy (a non-empty dict on disk),
the campaign's result carries exactly the loaded data for that channel and
no mining happens for it; if no file exists or the loaded data is empty
(falsy), the channel is mined.  Non-empty persisted data is the sole
"completed" marker. -/
theorem c9_checkpoint_gate (mineFn : String → Except PyErr Json) (ch : String) :
    ∀ (channels : List String), channels.Nodup → ch ∈ channels →
    ∀ (fs : String → Option Json),
    (jsonTruthy (load_channel_bias_from_json fs ch) = true →
        ch ∉ (mine_recommendation_bias mineFn fs channels).2.1 ∧
        (ch, load_channel_bias_from_json fs ch) ∈
          (mine_recommendation_bias mineFn fs channels).1) ∧
    (jsonTruthy (load_channel_bias_from_json fs ch) = false →
        ch ∈ (mine_recommendation_bias mineFn fs channels).2.1) := by
  intro channels
  induction channels with
  | nil => intro _ hch; cases hch
  | cons ch1 rest ih =>
      intro hnd hch fs
      have hnd1 := List.nodup_cons.mp hnd
      rcases List.mem_cons.mp hch with hhead | htail
      · subst hhead
        constructor
        · intro htruthy
          simp only [mine_recommendation_bias, htruthy, if_true]
          refine ⟨?_, List.mem_cons_self _ _⟩
          intro hmem
          exact hnd1.1 (mined_subset mineFn rest fs ch hmem)
        · intro hfalse
          simp only [mine_recommendation_bias, hfalse]
          cases hm : mineFn ch with
          | ok recs => simp
          | error e => simp
      · have hne : ch ≠ ch1 := fun h => hnd1.1 (h ▸ htail)
        have hbne : (ch == ch1) = false := by simpa using hne
        constructor
        · intro htruthy
          cases ht1 : jsonTruthy (load_channel_bias_from_json fs ch1) with
          | true =>
              simp only [mine_recommendation_bias, ht1, if_true]
              obtain ⟨hA1, hA2⟩ := ((ih hnd1.2 htail fs).1) htruthy
              exact ⟨hA1, List.mem_cons_of_mem _ hA2⟩
          | false =>
              cases hm : mineFn ch1 with
              | ok recs =>
                  have hload : load_channel_bias_from_json
                      (fun c => if c == ch1 then some recs else fs c) ch =
                      load_channel_bias_from_json fs ch := by
                    simp [load_channel_bias_from_json, hbne]
                  have ihr := ih hnd1.2 htail (fun c => if c == ch1 then some recs else fs c)
                  rw [hload] at ihr
                  obtain ⟨hA1, hA2⟩ := ihr.1 htruthy
                  simp only [mine_recommendation_bias, ht1, hm]
                  constructor
                  · intro hmem
                    rcases List.mem_cons.mp hmem with h | h
                    · exact hne h
                    · exact hA1 h
                  · exact List.mem_cons_of_mem _ hA2
              | error e =>
                  obtain ⟨hA1, hA2⟩ := ((ih hnd1.2 htail fs).1) htruthy
                  simp only [mine_recommendation_bias, ht1, hm]
                  constructor
                  · intro hmem
                    rcases List.mem_cons.mp hmem with h | h
                    · exact hne h
                    · exact hA1 h
                  · exact List.mem_cons_of_mem _ hA2
        · intro hfalse
          cases ht1 : jsonTruthy (load_channel_bias_from_json fs ch1) with
          | true =>
              simp only [mine_recommendation_bias, ht1, if_true]
              exact ((ih hnd1.2 htail fs).2) hfalse
          | false =>
              cases hm : mineFn ch1 with
              | ok recs =>
                  have hload : load_channel_bias_from_json
                      (fun c => if c == ch1 then some recs else fs c) ch =
                      load_channel_bias_from_json fs ch := by
                    simp [load_channel_bias_from_json, hbne]
                  have ihr := ih hnd1.2 htail (fun c => if c == ch1 then some recs else fs c)
                  rw [hload] at ihr
                  simp only [mine_recommendation_bias, ht1, hm]
                  exact List.mem_cons_of_mem _ (ihr.2 hfalse)
              | error e =>
                  simp only [mine_recommendation_bias, ht1, hm]
                  exact List.mem_cons_of_mem _ (((ih hnd1.2 htail fs).2) hfalse)

theorem c9_witness :
    (jsonTruthy (load_channel_bias_from_json c9fs "a") = true ∧
      "a" ∉ (mine_recommendation_bias c9mine c9fs ["a", "b"]).2.1 ∧
      ("a", load_channel_bias_from_json c9fs "a") ∈
        (mine_recommendation_bias c9mine c9fs ["a", "b"]).1) ∧
    (jsonTruthy (load_channel_bias_from_json c9fs "b") = false ∧
      "b" ∈ (mine_recommendation_bias c9mine c9fs ["a", "b"]).2.1) := by
  have ha := (c9_checkpoint_gate c9mine "a" ["a", "b"] (by decide) (by decide) c9fs).1 rfl
  have hb := (c9_checkpoint_gate c9mine "b" ["a", "b"] (by decide) (by decide) c9fs).2 rfl
  exact ⟨⟨rfl, ha.1, ha.2⟩, ⟨rfl, hb⟩⟩
